import Mathlib

/-!
Verification development for the temperature candlestick aggregation and
prediction engine (repository OOP-SDD-ADS2).

The C++ core is shallowly embedded over exact rationals: machine doubles
become rationals, std::vector becomes List, std::string operations are
modelled on the underlying character list, and the two historical variants
of the aggregator (OOP/weatherPredictor and OOP/temperature-analysis-tool)
are both embedded, since they differ in how invalid timestamps are handled.
All definitions are computable.
-/

/-- One raw temperature observation, mirroring struct TemperatureRecord
(date string plus temperature). -/
structure TemperatureRecord where
  date : String
  temperature : ℚ
deriving DecidableEq

/-- One aggregated period, mirroring class Candlestick (date label, open,
close, high, low). The open field is spelled open_ because open is a Lean
keyword. -/
structure Candlestick where
  date : String
  open_ : ℚ
  close : ℚ
  high : ℚ
  low : ℚ
deriving DecidableEq

/-- Aggregation granularity, mirroring enum class TimeFrame. -/
inductive TimeFrame where
  | Yearly
  | Monthly
  | Daily
deriving DecidableEq

/-- Length of a string in characters, mirroring std::string::length on the
ASCII date strings the program manipulates. -/
def strLen (s : String) : ℕ := s.data.length

/-- substr(0, n) of a string: the first n characters. -/
def strTake (s : String) (n : ℕ) : String := String.mk (s.data.take n)

/-- The string without its first n characters; strTake (strDrop s i) n
models substr(i, n). -/
def strDrop (s : String) (n : ℕ) : String := String.mk (s.data.drop n)

/-- String concatenation, mirroring std::string operator+. -/
def strAppend (s t : String) : String := String.mk (s.data ++ t.data)

/-- Lexicographic character-wise comparison, mirroring std::string
operator< on the date strings. -/
def charListLt : List Char → List Char → Bool
  | [], [] => false
  | [], _ :: _ => true
  | _ :: _, [] => false
  | a :: as, b :: bs =>
    if a.toNat < b.toNat then true
    else if b.toNat < a.toNat then false
    else charListLt as bs

/-- Comparison of two dates as strings. -/
def strLt (s t : String) : Bool := charListLt s.data t.data

/-- Mean of a list of values, mirroring Prediction::calculateMean: empty
input yields 0, otherwise the sum divided by the length. -/
def qMean (values : List ℚ) : ℚ :=
  if values = [] then 0 else values.sum / (values.length : ℚ)

/-- Maximum of a list as computed by the accumulation loops in the source
(start from the first element, fold with max); 0 for an empty list, which
no caller reaches. -/
def listMax (l : List ℚ) : ℚ :=
  match l with
  | [] => 0
  | t0 :: rest => rest.foldl max t0

/-- Minimum of a list as computed by the accumulation loops in the source;
0 for an empty list, which no caller reaches. -/
def listMin (l : List ℚ) : ℚ :=
  match l with
  | [] => 0
  | t0 :: rest => rest.foldl min t0

/-- Rational stand-in for std::sqrt. It is exact on every rational whose
reduced numerator and denominator are perfect squares (every concrete
input used in this development), and, like std::sqrt on nonnegative input,
always returns a nonnegative value. -/
def sqrtQ (q : ℚ) : ℚ :=
  (Nat.sqrt q.num.toNat : ℚ) / (Nat.sqrt q.den : ℚ)

/-- Sample standard deviation, mirroring
Prediction::calculateStandardDeviation: 0 for fewer than two values,
otherwise the square root of the sum of squared deviations divided by
(size - 1). -/
def qStdDev (values : List ℚ) (mean : ℚ) : ℚ :=
  if values.length < 2 then 0
  else sqrtQ ((values.map (fun v => (v - mean) * (v - mean))).sum / ((values.length : ℚ) - 1))

/-- CandlestickCalculator::getGroupKey: timestamps shorter than ten
characters yield the empty key; otherwise the key is the year, year-month,
or year-month-day prefix depending on the timeframe. Identical in both
source variants. -/
def getGroupKey (dateTime : String) (timeframe : TimeFrame) : String :=
  if strLen dateTime < 10 then ""
  else
    let year := strTake dateTime 4
    let month := strTake (strDrop dateTime 5) 2
    let day := strTake (strDrop dateTime 8) 2
    match timeframe with
    | TimeFrame.Yearly => year
    | TimeFrame.Monthly => strAppend (strAppend year "-") month
    | TimeFrame.Daily => strAppend (strAppend (strAppend (strAppend year "-") month) "-") day

/-- CandlestickCalculator::formatDateLabel, identical in both source
variants. -/
def formatDateLabel (groupKey : String) (timeframe : TimeFrame) : String :=
  match timeframe with
  | TimeFrame.Yearly => strAppend groupKey "-01-01"
  | TimeFrame.Monthly => strAppend groupKey "-01"
  | TimeFrame.Daily => groupKey

/-- Insertion step of sorting the records by date ascending (std::sort with
comparator a.date < b.date; the outputs below only depend on the resulting
order through date-equal groups, so stability is immaterial). -/
def insertRecord (r : TemperatureRecord) : List TemperatureRecord → List TemperatureRecord
  | [] => [r]
  | s :: rest => if strLt r.date s.date then r :: s :: rest else s :: insertRecord r rest

/-- Date-ascending sort of the raw records. -/
def sortRecords (records : List TemperatureRecord) : List TemperatureRecord :=
  records.foldl (fun acc r => insertRecord r acc) []

/-- Insertion into the key-sorted grouping map (std::map<std::string,
std::vector<double>>): a new key is placed in ascending key order, an
existing key has the temperature appended to its group. -/
def insertGroup (key : String) (t : ℚ) : List (String × List ℚ) → List (String × List ℚ)
  | [] => [(key, [t])]
  | (k, ts) :: rest =>
    if key = k then (k, ts ++ [t]) :: rest
    else if strLt key k then (key, [t]) :: (k, ts) :: rest
    else (k, ts) :: insertGroup key t rest

/-- The grouping map built by the weatherPredictor variant of
CandlestickCalculator::computeCandlesticks: every record is inserted under
its group key, including records whose invalid timestamp produced the empty
key. -/
def groupedDataWP (records : List TemperatureRecord) (timeframe : TimeFrame) :
    List (String × List ℚ) :=
  (sortRecords records).foldl
    (fun g r => insertGroup (getGroupKey r.date timeframe) r.temperature g) []

/-- The grouping map built by the temperature-analysis-tool variant: a
record whose group key is empty (invalid timestamp) is skipped. -/
def groupedDataTAT (records : List TemperatureRecord) (timeframe : TimeFrame) :
    List (String × List ℚ) :=
  (sortRecords records).foldl
    (fun g r =>
      let key := getGroupKey r.date timeframe
      if key = "" then g else insertGroup key r.temperature g) []

/-- The per-group emission loop shared by both source variants of
computeCandlesticks: empty groups are skipped; close is the mean of the
temperatures of the group, high the maximum, low the minimum; the open of
the first emitted candlestick is its own close, the open of every later
candlestick is the close of the previous one (isFirst and prevClose carry
the loop state isFirstPeriod / previousClose; the temperature-analysis-tool
variant phrases the same state as hasPreviousPeriod = not isFirst together
with previousPeriodAverage). -/
def processGroups (timeframe : TimeFrame) :
    List (String × List ℚ) → Bool → ℚ → List Candlestick
  | [], _, _ => []
  | (key, temps) :: rest, isFirst, prevClose =>
    if temps = [] then processGroups timeframe rest isFirst prevClose
    else
      let close := qMean temps
      let opn := if isFirst then close else prevClose
      { date := formatDateLabel key timeframe, open_ := opn, close := close,
        high := listMax temps, low := listMin temps }
        :: processGroups timeframe rest false close

/-- CandlestickCalculator::computeCandlesticks of OOP/weatherPredictor:
sort, group (keeping the empty key produced by invalid timestamps), then
emit one candlestick per group. -/
def computeCandlesticksWP (records : List TemperatureRecord) (timeframe : TimeFrame) :
    List Candlestick :=
  if records = [] then []
  else processGroups timeframe (groupedDataWP records timeframe) true 0

/-- CandlestickCalculator::computeCandlesticks of
OOP/temperature-analysis-tool: sort, group (dropping records with an empty
group key), then emit one candlestick per group. -/
def computeCandlesticksTAT (records : List TemperatureRecord) (timeframe : TimeFrame) :
    List Candlestick :=
  if records = [] then []
  else processGroups timeframe (groupedDataTAT records timeframe) true 0

/-- Result of one model invocation, mirroring struct PredictionResult. The
confidenceDescription display text of the source interpolates formatted
floating-point numbers and is elided (kept as the empty string). -/
structure PredictionResult where
  predictionValue : ℚ
  confidenceMetric : ℚ
  modelName : String
  isValid : Bool
  errorMessage : String
deriving DecidableEq

/-- Constructor for a successful prediction. -/
def PredictionResult.ok (prediction confidence : ℚ) (name : String) : PredictionResult :=
  { predictionValue := prediction, confidenceMetric := confidence, modelName := name,
    isValid := true, errorMessage := "" }

/-- Constructor for a failed prediction. -/
def PredictionResult.fail (error name : String) : PredictionResult :=
  { predictionValue := 0, confidenceMetric := 0, modelName := name,
    isValid := false, errorMessage := error }

/-- Result of a cross-validation run, mirroring struct ValidationResult. -/
structure ValidationResult where
  meanAbsoluteError : ℚ
  meanSquaredError : ℚ
  maxError : ℚ
  minError : ℚ
  validPredictions : ℕ
  totalAttempts : ℕ
  isValid : Bool
  errorMessage : String
deriving DecidableEq

namespace Prediction

/-- Prediction::calculateRSquaredDetailed: the coefficient of determination
of the fitted line against the data, floored at 0, with an epsilon guard on
the total sum of squares. -/
def calculateRSquaredDetailed (data : List Candlestick) (slope intercept : ℚ) : ℚ :=
  if data.length < 2 then 0
  else
    let meanY := (data.map Candlestick.close).sum / (data.length : ℚ)
    let totalSumSquares :=
      (data.map (fun c => (c.close - meanY) * (c.close - meanY))).sum
    let residualSumSquares :=
      (data.enum.map (fun p =>
        (p.2.close - (slope * (p.1 : ℚ) + intercept)) *
          (p.2.close - (slope * (p.1 : ℚ) + intercept)))).sum
    if totalSumSquares < 1 / 10 ^ 10 then 0
    else max 0 (1 - residualSumSquares / totalSumSquares)

/-- Prediction::predictLinearWithConfidence: least-squares regression of
close against the period index, extrapolated one step, with R-squared
confidence; fewer than two points is an invalid result, a near-zero
denominator falls back to the mean with confidence 0. -/
def predictLinearWithConfidence (data : List Candlestick) : PredictionResult :=
  if data.length < 2 then
    PredictionResult.fail "Insufficient data (need at least 2 points)" "Linear Regression"
  else
    let n : ℚ := (data.length : ℚ)
    let sumX := ((List.range data.length).map (fun i => (i : ℚ))).sum
    let sumY := (data.map Candlestick.close).sum
    let sumXY := (data.enum.map (fun p => (p.1 : ℚ) * p.2.close)).sum
    let sumX2 := ((List.range data.length).map (fun i => (i : ℚ) * (i : ℚ))).sum
    let denominator := n * sumX2 - sumX * sumX
    if |denominator| < 1 / 10 ^ 10 then
      PredictionResult.ok (sumY / n) 0 "Linear Regression"
    else
      let slope := (n * sumXY - sumX * sumY) / denominator
      let intercept := (sumY - slope * sumX) / n
      let prediction := slope * n + intercept
      PredictionResult.ok prediction
        (calculateRSquaredDetailed data slope intercept) "Linear Regression"

/-- Prediction::calculateStabilityConfidence: inverse relative volatility of
the last windowSize close values, clamped to the unit interval. The
relative volatility divides by the absolute mean only when the mean is
positive; otherwise the raw standard deviation is used. -/
def calculateStabilityConfidence (data : List Candlestick) (windowSize : ℤ) : ℚ :=
  if data.length < 2 ∨ windowSize < 2 then 0
  else
    let start : ℤ := max 0 ((data.length : ℤ) - windowSize)
    let recentValues := ((data.map Candlestick.close).drop start.toNat)
    if recentValues.length < 2 then 0
    else
      let mean := qMean recentValues
      let stdDev := qStdDev recentValues mean
      let relativeVolatility := if 0 < mean then stdDev / |mean| else stdDev
      let stabilityConfidence := 1 / (1 + relativeVolatility * 5)
      min 1 (max 0 stabilityConfidence)

/-- Prediction::predictMovingAverageWithConfidence: mean of the last
min(windowSize, n) close values with stability confidence. A non-positive
windowSize is replaced by the default window 3 before clamping. -/
def predictMovingAverageWithConfidence (data : List Candlestick) (windowSize : ℤ) :
    PredictionResult :=
  let modelName := strAppend (strAppend "Moving Average (" (toString windowSize)) "-period)"
  if data = [] then PredictionResult.fail "No data available" modelName
  else
    let windowSize' : ℤ := if windowSize ≤ 0 then 3 else windowSize
    let actualWindowSize : ℤ := min windowSize' (data.length : ℤ)
    let recent := (data.map Candlestick.close).drop (data.length - actualWindowSize.toNat)
    let prediction := recent.sum / (actualWindowSize : ℚ)
    PredictionResult.ok prediction
      (calculateStabilityConfidence data actualWindowSize) modelName

/-- Prediction::calculateConsistencyConfidence: inverse variability of the
successive close differences, clamped to the unit interval; 0 for fewer
than three candlesticks. -/
def calculateConsistencyConfidence (data : List Candlestick) : ℚ :=
  if data.length < 3 then 0
  else
    let changes := (data.zip data.tail).map (fun p => p.2.close - p.1.close)
    if changes.length < 2 then 0
    else
      let changeMean := qMean changes
      let changeStdDev := qStdDev changes changeMean
      let changeVariability := changeStdDev / (|changeMean| + 1)
      let consistencyConfidence := 1 / (1 + changeVariability)
      min 1 (max 0 consistencyConfidence)

/-- Prediction::predictHeuristicWithConfidence: momentum projection
last + (last - secondLast) with consistency confidence; a single point is
returned as a valid prediction with confidence 0. -/
def predictHeuristicWithConfidence (data : List Candlestick) : PredictionResult :=
  let modelName := "Heuristic (Momentum)"
  match (data.map Candlestick.close).reverse with
  | [] => PredictionResult.fail "No data available" modelName
  | [c] => PredictionResult.ok c 0 modelName
  | last :: secondLast :: _ =>
    PredictionResult.ok (last + (last - secondLast))
      (calculateConsistencyConfidence data) modelName

/-- Close value of the candlestick at an index (total version of
data[testIndex].getClose(); every use is guarded by the index being in
range). -/
def closeAt (data : List Candlestick) (i : ℕ) : ℚ :=
  (data.map Candlestick.close).getD i 0

/-- Accumulator of the cross-validation loop of Prediction::validateModel:
the error lists, the count of valid predictions and the count of attempts. -/
structure VState where
  errors : List ℚ
  sqErrors : List ℚ
  validPredictions : ℕ
  totalAttempts : ℕ
deriving DecidableEq

/-- One iteration of the validation loop at test index i: predict from the
strict prefix data[0:i]; a valid prediction records its absolute and
squared error against data[i].close and counts as valid; every iteration
counts as an attempt. -/
def valStep (data : List Candlestick) (f : List Candlestick → PredictionResult)
    (st : VState) (i : ℕ) : VState :=
  let p := f (data.take i)
  if p.isValid then
    { errors := st.errors ++ [|p.predictionValue - closeAt data i|],
      sqErrors := st.sqErrors ++
        [(p.predictionValue - closeAt data i) * (p.predictionValue - closeAt data i)],
      validPredictions := st.validPredictions + 1,
      totalAttempts := st.totalAttempts + 1 }
  else
    { st with totalAttempts := st.totalAttempts + 1 }

/-- Prediction::validateModel (the PredictionValidation variant implements
the same loop): forward-chaining leave-one-out validation for test indices
minTrainingSize to n-1, followed by the aggregate error statistics. -/
def validateModel (data : List Candlestick) (f : List Candlestick → PredictionResult)
    (minTrainingSize : ℕ) : ValidationResult :=
  if data.length < minTrainingSize + 1 then
    { meanAbsoluteError := 0, meanSquaredError := 0, maxError := 0, minError := 0,
      validPredictions := 0, totalAttempts := 0, isValid := false,
      errorMessage := strAppend (strAppend "Insufficient data for validation (need at least "
        (toString (minTrainingSize + 1))) " points)" }
  else
    let st := (List.range' minTrainingSize (data.length - minTrainingSize)).foldl
      (valStep data f) ⟨[], [], 0, 0⟩
    if st.errors = [] then
      { meanAbsoluteError := 0, meanSquaredError := 0, maxError := 0, minError := 0,
        validPredictions := st.validPredictions, totalAttempts := st.totalAttempts,
        isValid := false, errorMessage := "No valid predictions generated during validation" }
    else
      { meanAbsoluteError := qMean st.errors, meanSquaredError := qMean st.sqErrors,
        maxError := listMax st.errors, minError := listMin st.errors,
        validPredictions := st.validPredictions, totalAttempts := st.totalAttempts,
        isValid := true, errorMessage := "" }

/-- Prediction::generateRollingPredictions: one prediction per index i from
startIndex to n-1, each from the strict prefix data[0:i], appended in
order. -/
def generateRollingPredictions (data : List Candlestick)
    (f : List Candlestick → PredictionResult) (startIndex : ℕ) : List PredictionResult :=
  (List.range' startIndex (data.length - startIndex)).map (fun i => f (data.take i))

end Prediction

/-! ### Concrete inputs used for counterexamples and witnesses -/

/-- Two readings in the same year: temperatures 0 (chronologically first)
and 2. -/
def exTwoReadings : List TemperatureRecord :=
  [⟨"2000-01-03 00:00:00", 0⟩, ⟨"2000-06-05 00:00:00", 2⟩]

/-- Two readings in different years: temperatures 10 then 0. -/
def exTwoYears : List TemperatureRecord :=
  [⟨"2001-01-01 00:00:00", 10⟩, ⟨"2002-01-01 00:00:00", 0⟩]

/-- A single reading whose timestamp is shorter than YYYY-MM-DD. -/
def exBadDate : List TemperatureRecord := [⟨"bad", 5⟩]

/-- A single candlestick with all fields equal to 10, used as a minimal
moving-average input. -/
def exOneBar : List Candlestick := [{ date := "", open_ := 10, close := 10, high := 10, low := 10 }]

/-- Two candlesticks with close values 10 and 12, the boundary input of the
linear model. -/
def exLinearData : List Candlestick :=
  [{ date := "", open_ := 10, close := 10, high := 10, low := 10 },
   { date := "", open_ := 12, close := 12, high := 12, low := 12 }]

/-- Three candlesticks with closes -4, -2, 0: a strictly negative windowed
mean with nonzero variance. -/
def exNegTrend : List Candlestick :=
  [{ date := "", open_ := 0, close := -4, high := 0, low := 0 },
   { date := "", open_ := 0, close := -2, high := 0, low := 0 },
   { date := "", open_ := 0, close := 0, high := 0, low := 0 }]

/-- Five candlesticks with closes 1 to 5 used to exercise the validator. -/
def exFiveBars : List Candlestick :=
  [{ date := "", open_ := 1, close := 1, high := 1, low := 1 },
   { date := "", open_ := 2, close := 2, high := 2, low := 2 },
   { date := "", open_ := 3, close := 3, high := 3, low := 3 },
   { date := "", open_ := 4, close := 4, high := 4, low := 4 },
   { date := "", open_ := 5, close := 5, high := 5, low := 5 }]

/-- The effective moving-average window of the source: a non-positive
requested window is replaced by the default 3, and the result is clamped to
the history length. -/
def effectiveWindow (data : List Candlestick) (ws : ℤ) : ℕ :=
  (min (if ws ≤ 0 then 3 else ws) (data.length : ℤ)).toNat

/-- The last w close values of a history, as gathered by the stability
loop. -/
def windowedCloses (data : List Candlestick) (w : ℕ) : List ℚ :=
  (data.map Candlestick.close).drop (data.length - w)

/-- Reference definition following the words of the spec for the
moving-average stability confidence (for comparison with the source
translation, not a source translation itself): mean and sample standard
deviation of the windowed values; relativeVolatility divides by the
absolute mean except when the mean is approximately 0 (exactly 0 in
rational arithmetic), in which case the standard deviation is used
directly; the result is 1 / (1 + relativeVolatility * 5) clamped to the
unit interval. -/
def specStabilityConfidence (values : List ℚ) : ℚ :=
  let mean := qMean values
  let stdDev := qStdDev values mean
  let relativeVolatility := if mean = 0 then stdDev else stdDev / |mean|
  min 1 (max 0 (1 / (1 + relativeVolatility * 5)))


/-! ### List bound helpers -/

lemma le_foldl_max (l : List ℚ) (a : ℚ) : a ≤ l.foldl max a := by
  induction l generalizing a with
  | nil => exact le_refl a
  | cons b l ih => exact le_trans (le_max_left a b) (ih (max a b))

lemma mem_le_foldl_max (l : List ℚ) (a x : ℚ) (hx : x ∈ l) : x ≤ l.foldl max a := by
  induction l generalizing a with
  | nil => cases hx
  | cons b l ih =>
    rw [List.foldl_cons]
    rcases List.mem_cons.mp hx with h | h
    · subst h
      exact le_trans (le_max_right a x) (le_foldl_max l (max a x))
    · exact ih (max a b) h

lemma foldl_min_le (l : List ℚ) (a : ℚ) : l.foldl min a ≤ a := by
  induction l generalizing a with
  | nil => exact le_refl a
  | cons b l ih => exact le_trans (ih (min a b)) (min_le_left a b)

lemma foldl_min_le_mem (l : List ℚ) (a x : ℚ) (hx : x ∈ l) : l.foldl min a ≤ x := by
  induction l generalizing a with
  | nil => cases hx
  | cons b l ih =>
    rw [List.foldl_cons]
    rcases List.mem_cons.mp hx with h | h
    · subst h
      exact le_trans (foldl_min_le l (min a x)) (min_le_right a x)
    · exact ih (min a b) h

lemma le_listMax (l : List ℚ) (x : ℚ) (hx : x ∈ l) : x ≤ listMax l := by
  cases l with
  | nil => cases hx
  | cons t0 rest =>
    rcases List.mem_cons.mp hx with h | h
    · exact h ▸ le_foldl_max rest t0
    · exact mem_le_foldl_max rest t0 x h

lemma listMin_le (l : List ℚ) (x : ℚ) (hx : x ∈ l) : listMin l ≤ x := by
  cases l with
  | nil => cases hx
  | cons t0 rest =>
    rcases List.mem_cons.mp hx with h | h
    · exact h ▸ foldl_min_le rest t0
    · exact foldl_min_le_mem rest t0 x h

lemma qMean_le_listMax (l : List ℚ) (h : l ≠ []) : qMean l ≤ listMax l := by
  have hlen : 0 < (l.length : ℚ) := by
    have := List.length_pos.mpr h
    exact_mod_cast this
  rw [qMean, if_neg h, div_le_iff hlen]
  have := List.sum_le_card_nsmul l (listMax l) (fun x hx => le_listMax l x hx)
  rw [nsmul_eq_mul] at this
  linarith

lemma listMin_le_qMean (l : List ℚ) (h : l ≠ []) : listMin l ≤ qMean l := by
  have hlen : 0 < (l.length : ℚ) := by
    have := List.length_pos.mpr h
    exact_mod_cast this
  rw [qMean, if_neg h, le_div_iff hlen]
  have := List.card_nsmul_le_sum l (listMin l) (fun x hx => listMin_le l x hx)
  rw [nsmul_eq_mul] at this
  linarith

lemma clamp01 (x : ℚ) : 0 ≤ min 1 (max 0 x) ∧ min 1 (max 0 x) ≤ 1 :=
  ⟨le_min zero_le_one (le_max_left 0 x), min_le_left 1 (max 0 x)⟩

/-! ### Structural lemmas about the candlestick emission loop -/

lemma processGroups_stats (tf : TimeFrame) :
    ∀ (groups : List (String × List ℚ)), (∀ g ∈ groups, g.2 ≠ []) →
      ∀ (isFirst : Bool) (prev : ℚ),
        (processGroups tf groups isFirst prev).map (fun b => (b.close, b.high, b.low))
          = groups.map (fun g => (qMean g.2, listMax g.2, listMin g.2)) := by
  intro groups
  induction groups with
  | nil => intro _ isFirst prev; rfl
  | cons g rest ih =>
    intro hne isFirst prev
    obtain ⟨key, temps⟩ := g
    have htemps : temps ≠ [] := hne (key, temps) (List.mem_cons_self _ _)
    rw [processGroups, if_neg htemps]
    simp only [List.map_cons]
    exact congrArg _ (ih (fun g hg => hne g (List.mem_cons_of_mem _ hg)) false (qMean temps))

lemma processGroups_head_open (tf : TimeFrame) :
    ∀ (groups : List (String × List ℚ)) (isFirst : Bool) (prev : ℚ) (b : Candlestick),
      (processGroups tf groups isFirst prev).head? = some b →
        b.open_ = if isFirst then b.close else prev := by
  intro groups
  induction groups with
  | nil => intro isFirst prev b hb; cases hb
  | cons g rest ih =>
    intro isFirst prev b hb
    obtain ⟨key, temps⟩ := g
    by_cases htemps : temps = []
    · rw [processGroups, if_pos htemps] at hb
      exact ih isFirst prev b hb
    · rw [processGroups, if_neg htemps] at hb
      simp only [List.head?_cons, Option.some.injEq] at hb
      subst hb
      rfl

lemma processGroups_chain (tf : TimeFrame) :
    ∀ (groups : List (String × List ℚ)) (isFirst : Bool) (prev : ℚ) (i : ℕ)
      (b b' : Candlestick),
      (processGroups tf groups isFirst prev)[i]? = some b →
      (processGroups tf groups isFirst prev)[i + 1]? = some b' →
      b'.open_ = b.close := by
  intro groups
  induction groups with
  | nil => intro isFirst prev i b b' hb _; cases hb
  | cons g rest ih =>
    intro isFirst prev i b b' hb hb'
    obtain ⟨key, temps⟩ := g
    by_cases htemps : temps = []
    · rw [processGroups, if_pos htemps] at hb hb'
      exact ih isFirst prev i b b' hb hb'
    · rw [processGroups, if_neg htemps] at hb hb'
      cases i with
      | zero =>
        simp only [List.getElem?_cons_zero, Option.some.injEq] at hb
        simp only [List.getElem?_cons_succ] at hb'
        have hhead : (processGroups tf rest false (qMean temps)).head? = some b' := by
          cases hrest : processGroups tf rest false (qMean temps) with
          | nil => rw [hrest] at hb'; cases hb'
          | cons c cs =>
            rw [hrest] at hb'
            simp only [List.getElem?_cons_zero] at hb'
            rw [List.head?_cons]
            exact hb'
        have hopen := processGroups_head_open tf rest false (qMean temps) b' hhead
        simp only [Bool.false_eq_true, if_false] at hopen
        subst hb
        rw [hopen]
      | succ j =>
        simp only [List.getElem?_cons_succ] at hb hb'
        exact ih false (qMean temps) j b b' hb hb'

lemma processGroups_mem_bounds (tf : TimeFrame) :
    ∀ (groups : List (String × List ℚ)) (isFirst : Bool) (prev : ℚ),
      ∀ b ∈ processGroups tf groups isFirst prev, b.low ≤ b.close ∧ b.close ≤ b.high := by
  intro groups
  induction groups with
  | nil => intro isFirst prev b hb; cases hb
  | cons g rest ih =>
    intro isFirst prev b hb
    obtain ⟨key, temps⟩ := g
    by_cases htemps : temps = []
    · rw [processGroups, if_pos htemps] at hb
      exact ih isFirst prev b hb
    · rw [processGroups, if_neg htemps] at hb
      rcases List.mem_cons.mp hb with h | h
      · subst h
        exact ⟨listMin_le_qMean temps htemps, qMean_le_listMax temps htemps⟩
      · exact ih false (qMean temps) b h

/-! ### The grouping maps contain no empty groups -/

lemma insertGroup_ne (key : String) (t : ℚ) :
    ∀ (l : List (String × List ℚ)), (∀ g ∈ l, g.2 ≠ []) →
      ∀ g ∈ insertGroup key t l, g.2 ≠ [] := by
  intro l
  induction l with
  | nil =>
    intro _ g hg
    rw [insertGroup] at hg
    rcases List.mem_cons.mp hg with h | h
    · subst h; simp
    · cases h
  | cons p rest ih =>
    intro h0 g hg
    obtain ⟨k, ts⟩ := p
    rw [insertGroup] at hg
    by_cases hk : key = k
    · rw [if_pos hk] at hg
      rcases List.mem_cons.mp hg with h | h
      · subst h; simp
      · exact h0 g (List.mem_cons_of_mem _ h)
    · rw [if_neg hk] at hg
      by_cases hlt : strLt key k
      · simp only [hlt, if_true] at hg
        rcases List.mem_cons.mp hg with h | h
        · subst h; simp
        · exact h0 g h
      · simp only [hlt, if_false] at hg
        rcases List.mem_cons.mp hg with h | h
        · exact h ▸ h0 (k, ts) (List.mem_cons_self _ _)
        · exact ih (fun g hg => h0 g (List.mem_cons_of_mem _ hg)) g h

lemma groupedDataWP_ne (records : List TemperatureRecord) (tf : TimeFrame) :
    ∀ g ∈ groupedDataWP records tf, g.2 ≠ [] := by
  rw [groupedDataWP]
  generalize sortRecords records = rs
  have : ∀ (rs : List TemperatureRecord) (g0 : List (String × List ℚ)),
      (∀ g ∈ g0, g.2 ≠ []) →
      ∀ g ∈ rs.foldl (fun g r => insertGroup (getGroupKey r.date tf) r.temperature g) g0,
        g.2 ≠ [] := by
    intro rs
    induction rs with
    | nil => intro g0 h0; exact h0
    | cons r rest ih =>
      intro g0 h0
      exact ih _ (insertGroup_ne _ _ g0 h0)
  exact this rs [] (by intro g hg; cases hg)

lemma groupedDataTAT_ne (records : List TemperatureRecord) (tf : TimeFrame) :
    ∀ g ∈ groupedDataTAT records tf, g.2 ≠ [] := by
  rw [groupedDataTAT]
  generalize sortRecords records = rs
  have : ∀ (rs : List TemperatureRecord) (g0 : List (String × List ℚ)),
      (∀ g ∈ g0, g.2 ≠ []) →
      ∀ g ∈ rs.foldl (fun g r =>
          let key := getGroupKey r.date tf
          if key = "" then g else insertGroup key r.temperature g) g0,
        g.2 ≠ [] := by
    intro rs
    induction rs with
    | nil => intro g0 h0; exact h0
    | cons r rest ih =>
      intro g0 h0
      by_cases hk : getGroupKey r.date tf = ""
      · simp only [List.foldl_cons, hk, if_true]
        exact ih g0 h0
      · simp only [List.foldl_cons, hk, if_false]
        exact ih _ (insertGroup_ne _ _ g0 h0)
  exact this rs [] (by intro g hg; cases hg)

/-! ### Unfolding the aggregator entry points -/

lemma computeCandlesticksWP_eq (recs : List TemperatureRecord) (tf : TimeFrame) :
    computeCandlesticksWP recs tf = processGroups tf (groupedDataWP recs tf) true 0 := by
  by_cases h : recs = []
  · subst h; rfl
  · rw [computeCandlesticksWP, if_neg h]

lemma computeCandlesticksTAT_eq (recs : List TemperatureRecord) (tf : TimeFrame) :
    computeCandlesticksTAT recs tf = processGroups tf (groupedDataTAT recs tf) true 0 := by
  by_cases h : recs = []
  · subst h; rfl
  · rw [computeCandlesticksTAT, if_neg h]

lemma exTwoReadings_bars :
    computeCandlesticksWP exTwoReadings TimeFrame.Yearly
      = [{ date := "2000-01-01", open_ := 1, close := 1, high := 2, low := 0 }] := by
  have hg : groupedDataWP exTwoReadings TimeFrame.Yearly = [("2000", [0, 2])] := by decide
  rw [computeCandlesticksWP_eq, hg]
  have hne : (([0, 2] : List ℚ)) ≠ [] := by decide
  have happ : strAppend "2000" "-01-01" = "2000-01-01" := by decide
  norm_num [processGroups, qMean, listMax, listMin, formatDateLabel, hne, happ]

lemma exTwoYears_bars :
    computeCandlesticksWP exTwoYears TimeFrame.Yearly
      = [{ date := "2001-01-01", open_ := 10, close := 10, high := 10, low := 10 },
         { date := "2002-01-01", open_ := 10, close := 0, high := 0, low := 0 }] := by
  have hg : groupedDataWP exTwoYears TimeFrame.Yearly = [("2001", [10]), ("2002", [0])] := by
    decide
  rw [computeCandlesticksWP_eq, hg]
  have hne1 : (([10] : List ℚ)) ≠ [] := by decide
  have hne2 : (([0] : List ℚ)) ≠ [] := by decide
  have happ1 : strAppend "2001" "-01-01" = "2001-01-01" := by decide
  have happ2 : strAppend "2002" "-01-01" = "2002-01-01" := by decide
  norm_num [processGroups, qMean, listMax, listMin, formatDateLabel, hne1, hne2, happ1, happ2]

/-! ### Claim C1 -/

/-- Claim C1, counterexample: for the two readings of exTwoReadings, which
form a single Yearly group whose chronologically first reading has
temperature 0, the emitted candlestick has open 1 (the mean of the group),
not 0: the open is not the temperature of the first reading of the group. -/
theorem C1_counterexample :
    (computeCandlesticksWP exTwoReadings TimeFrame.Yearly).map Candlestick.open_ = [1]
    ∧ (sortRecords exTwoReadings).map TemperatureRecord.temperature = [0, 2]
    ∧ (1 : ℚ) ≠ 0 := by
  refine ⟨?_, by decide, by norm_num⟩
  rw [exTwoReadings_bars]
  rfl

/-- Claim C1 as amended: in both aggregator variants, every emitted
candlestick has close equal to the mean, high equal to the maximum and low
equal to the minimum of the temperatures of its group; the open is not the
first reading of the group but follows the close-chaining policy: the first
emitted candlestick opens at its own close and every later one opens at the
close of the previous candlestick. -/
theorem C1_group_statistics (recs : List TemperatureRecord) (tf : TimeFrame) :
    ((computeCandlesticksWP recs tf).map (fun b => (b.close, b.high, b.low))
        = (groupedDataWP recs tf).map (fun g => (qMean g.2, listMax g.2, listMin g.2)))
    ∧ (∀ b, (computeCandlesticksWP recs tf).head? = some b → b.open_ = b.close)
    ∧ (∀ i b b', (computeCandlesticksWP recs tf)[i]? = some b →
        (computeCandlesticksWP recs tf)[i + 1]? = some b' → b'.open_ = b.close)
    ∧ ((computeCandlesticksTAT recs tf).map (fun b => (b.close, b.high, b.low))
        = (groupedDataTAT recs tf).map (fun g => (qMean g.2, listMax g.2, listMin g.2))) := by
  rw [computeCandlesticksWP_eq, computeCandlesticksTAT_eq]
  refine ⟨processGroups_stats tf _ (groupedDataWP_ne recs tf) true 0, ?_, ?_,
    processGroups_stats tf _ (groupedDataTAT_ne recs tf) true 0⟩
  · intro b hb
    have hoc := processGroups_head_open tf _ true 0 b hb
    rwa [if_pos rfl] at hoc
  · intro i b b' h1 h2
    exact processGroups_chain tf _ true 0 i b b' h1 h2

/-- Claim C1, witness: the amended open policy applied to the concrete run
of exTwoReadings. -/
theorem C1_group_statistics_witness :
    ({ date := "2000-01-01", open_ := 1, close := 1, high := 2, low := 0 } : Candlestick).open_
      = ({ date := "2000-01-01", open_ := 1, close := 1, high := 2, low := 0 } : Candlestick).close :=
  (C1_group_statistics exTwoReadings TimeFrame.Yearly).2.1 _
    (by rw [exTwoReadings_bars]; rfl)

/-! ### Claim C2 -/

/-- Claim C2, counterexample: in the run of exTwoYears the second
candlestick has open 10 (the previous close) but high 0, violating
max(open, close) ≤ high. -/
theorem C2_counterexample :
    ¬ (∀ b ∈ computeCandlesticksWP exTwoYears TimeFrame.Yearly,
        b.low ≤ min b.open_ b.close ∧ max b.open_ b.close ≤ b.high) := by
  intro h
  have hb := h { date := "2002-01-01", open_ := 10, close := 0, high := 0, low := 0 }
    (by rw [exTwoYears_bars]; exact List.mem_cons_of_mem _ (List.mem_cons_self _ _))
  have h10 := le_trans (le_max_left (10 : ℚ) 0) hb.2
  norm_num at h10

/-- Claim C2 as amended: every candlestick emitted by either aggregator
variant satisfies low ≤ close ≤ high, and the first emitted candlestick
(whose open equals its close) satisfies the full invariant
low ≤ min(open, close) and max(open, close) ≤ high; later candlesticks may
violate the open part, since their open is the previous close. -/
theorem C2_bar_bounds (recs : List TemperatureRecord) (tf : TimeFrame) :
    (∀ b ∈ computeCandlesticksWP recs tf, b.low ≤ b.close ∧ b.close ≤ b.high)
    ∧ (∀ b, (computeCandlesticksWP recs tf).head? = some b →
        b.low ≤ min b.open_ b.close ∧ max b.open_ b.close ≤ b.high)
    ∧ (∀ b ∈ computeCandlesticksTAT recs tf, b.low ≤ b.close ∧ b.close ≤ b.high)
    ∧ (∀ b, (computeCandlesticksTAT recs tf).head? = some b →
        b.low ≤ min b.open_ b.close ∧ max b.open_ b.close ≤ b.high) := by
  rw [computeCandlesticksWP_eq, computeCandlesticksTAT_eq]
  refine ⟨fun b hb => processGroups_mem_bounds tf _ true 0 b hb, ?_,
    fun b hb => processGroups_mem_bounds tf _ true 0 b hb, ?_⟩
  all_goals
    intro b hb
  all_goals
    have hoc := processGroups_head_open tf _ true 0 b hb
  all_goals
    rw [if_pos rfl] at hoc
  all_goals
    have hbounds := processGroups_mem_bounds tf _ true 0 b (List.mem_of_mem_head? hb)
  all_goals
    rw [hoc, min_self, max_self]
  all_goals
    exact hbounds

/-- Claim C2, witness: the close-within-range bound on the first
candlestick of the exTwoYears run. -/
theorem C2_bar_bounds_witness :
    ({ date := "2001-01-01", open_ := 10, close := 10, high := 10, low := 10 } : Candlestick).low
        ≤ ({ date := "2001-01-01", open_ := 10, close := 10, high := 10, low := 10 } : Candlestick).close
    ∧ ({ date := "2001-01-01", open_ := 10, close := 10, high := 10, low := 10 } : Candlestick).close
        ≤ ({ date := "2001-01-01", open_ := 10, close := 10, high := 10, low := 10 } : Candlestick).high :=
  (C2_bar_bounds exTwoYears TimeFrame.Yearly).1 _
    (by rw [exTwoYears_bars]; exact List.mem_cons_self _ _)

/-! ### Claim C4 -/

/-- Claim C4, evaluation at the failing input: the temperature-analysis-tool
aggregator excludes the invalid timestamp (no candlestick at all), but the
weatherPredictor aggregator groups it under the empty key and emits a
candlestick for it, contradicting the claim that such readings contribute
to no emitted bar. -/
theorem C4_invalid_timestamp_divergence :
    computeCandlesticksTAT exBadDate TimeFrame.Daily = []
    ∧ computeCandlesticksWP exBadDate TimeFrame.Daily
        = [{ date := "", open_ := 5, close := 5, high := 5, low := 5 }] := by
  constructor
  · have hg : groupedDataTAT exBadDate TimeFrame.Daily = [] := by decide
    rw [computeCandlesticksTAT_eq, hg, processGroups]
  · have hg : groupedDataWP exBadDate TimeFrame.Daily = [("", [5])] := by decide
    rw [computeCandlesticksWP_eq, hg]
    have hne : (([5] : List ℚ)) ≠ [] := by decide
    norm_num [processGroups, qMean, listMax, listMin, formatDateLabel, hne]

/-! ### Claim C10 -/

/-- Claim C10 (the close-chaining open policy, as implemented): for every
input and granularity, in both aggregator variants, the first emitted
candlestick opens at its own close and every subsequent candlestick opens
at the close of the previous one. -/
theorem C10_close_chaining (recs : List TemperatureRecord) (tf : TimeFrame) :
    (∀ b, (computeCandlesticksWP recs tf).head? = some b → b.open_ = b.close)
    ∧ (∀ i b b', (computeCandlesticksWP recs tf)[i]? = some b →
        (computeCandlesticksWP recs tf)[i + 1]? = some b' → b'.open_ = b.close)
    ∧ (∀ b, (computeCandlesticksTAT recs tf).head? = some b → b.open_ = b.close)
    ∧ (∀ i b b', (computeCandlesticksTAT recs tf)[i]? = some b →
        (computeCandlesticksTAT recs tf)[i + 1]? = some b' → b'.open_ = b.close) := by
  rw [computeCandlesticksWP_eq, computeCandlesticksTAT_eq]
  refine ⟨?_, ?_, ?_, ?_⟩
  · intro b hb
    have hoc := processGroups_head_open tf _ true 0 b hb
    rwa [if_pos rfl] at hoc
  · intro i b b' h1 h2
    exact processGroups_chain tf _ true 0 i b b' h1 h2
  · intro b hb
    have hoc := processGroups_head_open tf _ true 0 b hb
    rwa [if_pos rfl] at hoc
  · intro i b b' h1 h2
    exact processGroups_chain tf _ true 0 i b b' h1 h2

/-- Claim C10, witness: in the exTwoYears run the second candlestick opens
at the close of the first. -/
theorem C10_close_chaining_witness :
    ({ date := "2002-01-01", open_ := 10, close := 0, high := 0, low := 0 } : Candlestick).open_
      = ({ date := "2001-01-01", open_ := 10, close := 10, high := 10, low := 10 } : Candlestick).close :=
  (C10_close_chaining exTwoYears TimeFrame.Yearly).2.1 0 _ _
    (by rw [exTwoYears_bars]; rfl) (by rw [exTwoYears_bars]; rfl)

/-! ### Confidence bounds -/

lemma sum_mul_self_nonneg {α : Type} (l : List α) (f : α → ℚ) :
    0 ≤ (l.map (fun x => f x * f x)).sum := by
  apply List.sum_nonneg
  intro x hx
  obtain ⟨a, _, rfl⟩ := List.mem_map.mp hx
  exact mul_self_nonneg (f a)

lemma rSquared_bounds (data : List Candlestick) (slope intercept : ℚ) :
    0 ≤ Prediction.calculateRSquaredDetailed data slope intercept
    ∧ Prediction.calculateRSquaredDetailed data slope intercept ≤ 1 := by
  simp only [Prediction.calculateRSquaredDetailed]
  split_ifs with h1 h2
  · exact ⟨le_refl 0, zero_le_one⟩
  · exact ⟨le_refl 0, zero_le_one⟩
  · constructor
    · exact le_max_left 0 _
    · apply max_le zero_le_one
      have hrss : 0 ≤ (data.enum.map (fun p =>
          (p.2.close - (slope * (p.1 : ℚ) + intercept)) *
            (p.2.close - (slope * (p.1 : ℚ) + intercept)))).sum :=
        sum_mul_self_nonneg data.enum (fun p => p.2.close - (slope * (p.1 : ℚ) + intercept))
      have htss : (0 : ℚ) ≤ (data.map (fun c =>
          (c.close - (data.map Candlestick.close).sum / (data.length : ℚ)) *
            (c.close - (data.map Candlestick.close).sum / (data.length : ℚ)))).sum :=
        sum_mul_self_nonneg data _
      have hdiv : 0 ≤ (data.enum.map (fun p =>
          (p.2.close - (slope * (p.1 : ℚ) + intercept)) *
            (p.2.close - (slope * (p.1 : ℚ) + intercept)))).sum /
          (data.map (fun c =>
            (c.close - (data.map Candlestick.close).sum / (data.length : ℚ)) *
              (c.close - (data.map Candlestick.close).sum / (data.length : ℚ)))).sum :=
        div_nonneg hrss htss
      linarith

lemma stability_bounds (data : List Candlestick) (ws : ℤ) :
    0 ≤ Prediction.calculateStabilityConfidence data ws
    ∧ Prediction.calculateStabilityConfidence data ws ≤ 1 := by
  simp only [Prediction.calculateStabilityConfidence]
  split_ifs with h1 h2 h3
  · exact ⟨le_refl 0, zero_le_one⟩
  · exact ⟨le_refl 0, zero_le_one⟩
  · exact clamp01 _
  · exact clamp01 _

lemma consistency_bounds (data : List Candlestick) :
    0 ≤ Prediction.calculateConsistencyConfidence data
    ∧ Prediction.calculateConsistencyConfidence data ≤ 1 := by
  simp only [Prediction.calculateConsistencyConfidence]
  split_ifs with h1 h2
  · exact ⟨le_refl 0, zero_le_one⟩
  · exact ⟨le_refl 0, zero_le_one⟩
  · exact clamp01 _

/-! ### Claim C7 -/

/-- Claim C7: for every history and every model of the engine (linear,
moving average with any window, heuristic), the confidence metric of the
returned result lies in the unit interval. -/
theorem C7_confidence_clamp (data : List Candlestick) (ws : ℤ) :
    (0 ≤ (Prediction.predictLinearWithConfidence data).confidenceMetric
      ∧ (Prediction.predictLinearWithConfidence data).confidenceMetric ≤ 1)
    ∧ (0 ≤ (Prediction.predictMovingAverageWithConfidence data ws).confidenceMetric
      ∧ (Prediction.predictMovingAverageWithConfidence data ws).confidenceMetric ≤ 1)
    ∧ (0 ≤ (Prediction.predictHeuristicWithConfidence data).confidenceMetric
      ∧ (Prediction.predictHeuristicWithConfidence data).confidenceMetric ≤ 1) := by
  refine ⟨?_, ?_, ?_⟩
  · simp only [Prediction.predictLinearWithConfidence, PredictionResult.ok,
      PredictionResult.fail]
    split_ifs with h1 h2
    · exact ⟨le_refl 0, zero_le_one⟩
    · exact ⟨le_refl 0, zero_le_one⟩
    · exact rSquared_bounds data _ _
  · simp only [Prediction.predictMovingAverageWithConfidence, PredictionResult.ok,
      PredictionResult.fail]
    split_ifs with h1 h2
    · exact ⟨le_refl 0, zero_le_one⟩
    · exact stability_bounds data _
    · exact stability_bounds data _
  · simp only [Prediction.predictHeuristicWithConfidence, PredictionResult.ok,
      PredictionResult.fail]
    split
    · exact ⟨le_refl 0, zero_le_one⟩
    · exact ⟨le_refl 0, zero_le_one⟩
    · exact consistency_bounds data

/-! ### Claim C3 -/

/-- Claim C3, counterexample: calling the moving-average model with
window -1 on a one-element history is not rejected: the result is valid
and carries the prediction 10 computed with the silently substituted
default window. -/
theorem C3_counterexample :
    (Prediction.predictMovingAverageWithConfidence exOneBar (-1)).isValid = true
    ∧ (Prediction.predictMovingAverageWithConfidence exOneBar (-1)).predictionValue = 10 := by
  constructor
  · norm_num [exOneBar, Prediction.predictMovingAverageWithConfidence,
      Prediction.calculateStabilityConfidence, PredictionResult.ok]
  · norm_num [exOneBar, Prediction.predictMovingAverageWithConfidence,
      Prediction.calculateStabilityConfidence, PredictionResult.ok]

/-- Claim C3 as amended: a non-positive window is silently replaced by the
default window 3 (then clamped to the history length): for non-empty data
the result is valid and has exactly the prediction and confidence of the
window-3 call, rather than being rejected. -/
theorem C3_default_window (data : List Candlestick) (ws : ℤ)
    (hws : ws ≤ 0) (hne : data ≠ []) :
    (Prediction.predictMovingAverageWithConfidence data ws).isValid = true
    ∧ (Prediction.predictMovingAverageWithConfidence data ws).predictionValue
        = (Prediction.predictMovingAverageWithConfidence data 3).predictionValue
    ∧ (Prediction.predictMovingAverageWithConfidence data ws).confidenceMetric
        = (Prediction.predictMovingAverageWithConfidence data 3).confidenceMetric := by
  rw [Prediction.predictMovingAverageWithConfidence,
    Prediction.predictMovingAverageWithConfidence]
  simp only [if_neg hne, if_pos hws, if_neg (by norm_num : ¬ (3 : ℤ) ≤ 0)]
  exact ⟨rfl, rfl, rfl⟩

/-- Claim C3, witness: the amended behavior at window -1 on exOneBar. -/
theorem C3_default_window_witness :
    (Prediction.predictMovingAverageWithConfidence exOneBar (-1)).isValid = true
    ∧ (Prediction.predictMovingAverageWithConfidence exOneBar (-1)).predictionValue
        = (Prediction.predictMovingAverageWithConfidence exOneBar 3).predictionValue
    ∧ (Prediction.predictMovingAverageWithConfidence exOneBar (-1)).confidenceMetric
        = (Prediction.predictMovingAverageWithConfidence exOneBar 3).confidenceMetric :=
  C3_default_window exOneBar (-1) (by decide) (by decide)

/-! ### Claim C9 -/

/-- Claim C9: on the two-bar history with closes 10 and 12 the linear model
returns the valid prediction 14 (slope 2, intercept 10 evaluated at index
2) with confidence 1; and every history of fewer than two bars yields an
invalid result with the insufficient-data reason. -/
theorem C9_linear_boundary :
    (Prediction.predictLinearWithConfidence exLinearData).predictionValue = 14
    ∧ (Prediction.predictLinearWithConfidence exLinearData).confidenceMetric = 1
    ∧ (Prediction.predictLinearWithConfidence exLinearData).isValid = true
    ∧ ∀ data : List Candlestick, data.length < 2 →
        (Prediction.predictLinearWithConfidence data).isValid = false
        ∧ (Prediction.predictLinearWithConfidence data).errorMessage
            = "Insufficient data (need at least 2 points)" := by
  refine ⟨?_, ?_, ?_, ?_⟩
  · norm_num [exLinearData, Prediction.predictLinearWithConfidence,
      Prediction.calculateRSquaredDetailed, List.range, List.range.loop,
      List.enum, List.enumFrom, PredictionResult.ok]
  · norm_num [exLinearData, Prediction.predictLinearWithConfidence,
      Prediction.calculateRSquaredDetailed, List.range, List.range.loop,
      List.enum, List.enumFrom, PredictionResult.ok]
  · norm_num [exLinearData, Prediction.predictLinearWithConfidence,
      Prediction.calculateRSquaredDetailed, List.range, List.range.loop,
      List.enum, List.enumFrom, PredictionResult.ok]
  · intro data h
    rw [Prediction.predictLinearWithConfidence, if_pos h]
    exact ⟨rfl, rfl⟩

/-- Claim C9, witness: the insufficient-data branch applied to the empty
history. -/
theorem C9_linear_boundary_witness :
    (Prediction.predictLinearWithConfidence []).isValid = false
    ∧ (Prediction.predictLinearWithConfidence []).errorMessage
        = "Insufficient data (need at least 2 points)" :=
  C9_linear_boundary.2.2.2 [] (by decide)

/-! ### Claim C5 -/

/-- Claim C5, counterexample: on the history with closes -4, -2, 0 and
window 3 (history length 2 or more, effective window 2 or more, windowed
mean -2, which is not approximately 0), the source computes confidence
1/11 because its fallback test is mean > 0 rather than mean approximately
0, while the formula of the spec gives 1/6. -/
theorem C5_counterexample :
    (Prediction.predictMovingAverageWithConfidence exNegTrend 3).confidenceMetric = 1 / 11
    ∧ specStabilityConfidence (exNegTrend.map Candlestick.close) = 1 / 6
    ∧ qMean (exNegTrend.map Candlestick.close) ≠ 0
    ∧ (1 / 11 : ℚ) ≠ 1 / 6 := by
  have hne : (([-4, -2, 0] : List ℚ)) ≠ [] := by decide
  have hne2 : ([{ date := "", open_ := 0, close := -4, high := 0, low := 0 },
      { date := "", open_ := 0, close := -2, high := 0, low := 0 },
      { date := "", open_ := 0, close := 0, high := 0, low := 0 }] : List Candlestick) ≠ [] := by
    decide
  have hs : Nat.sqrt (Int.toNat 4) = 2 := by
    rw [show (Int.toNat 4) = 4 from rfl]
    norm_num
  refine ⟨?_, ?_, ?_, by norm_num⟩
  · norm_num [exNegTrend, Prediction.predictMovingAverageWithConfidence,
      Prediction.calculateStabilityConfidence, qMean, qStdDev, sqrtQ, PredictionResult.ok,
      hne, hne2, hs, min_def, max_def]
  · norm_num [exNegTrend, specStabilityConfidence, qMean, qStdDev, sqrtQ, hne, hs,
      min_def, max_def]
  · norm_num [exNegTrend, qMean, hne]

/-- Claim C5 as amended: for histories of length at least 2 and effective
window at least 2, the moving-average confidence is
1 / (1 + relativeVolatility * 5) clamped to the unit interval, where mean
and sample standard deviation are taken over the windowed close values and
relativeVolatility is stdDev / |mean| when the mean is positive and the
raw stdDev whenever the mean is zero or negative (the source tests
mean > 0, not mean approximately 0). -/
theorem C5_stability_formula (data : List Candlestick) (ws : ℤ)
    (h2 : 2 ≤ data.length) (hw : 2 ≤ effectiveWindow data ws) :
    (Prediction.predictMovingAverageWithConfidence data ws).confidenceMetric
      = min 1 (max 0 (1 / (1 +
          (if 0 < qMean (windowedCloses data (effectiveWindow data ws))
            then qStdDev (windowedCloses data (effectiveWindow data ws))
                  (qMean (windowedCloses data (effectiveWindow data ws)))
                / |qMean (windowedCloses data (effectiveWindow data ws))|
            else qStdDev (windowedCloses data (effectiveWindow data ws))
                  (qMean (windowedCloses data (effectiveWindow data ws)))) * 5))) := by
  have hne : data ≠ [] := by
    intro h
    rw [h] at h2
    exact absurd h2 (by norm_num)
  rw [effectiveWindow] at hw ⊢
  rw [windowedCloses]
  set m : ℤ := min (if ws ≤ 0 then 3 else ws) (data.length : ℤ) with hm
  have hmn : m ≤ (data.length : ℤ) := min_le_right _ _
  have hm2 : (2 : ℤ) ≤ m := by omega
  simp only [Prediction.predictMovingAverageWithConfidence, PredictionResult.ok,
    if_neg hne, ← hm]
  simp only [Prediction.calculateStabilityConfidence]
  rw [if_neg (by push_neg; omega : ¬(data.length < 2 ∨ m < 2))]
  rw [max_eq_right (by omega : (0 : ℤ) ≤ (data.length : ℤ) - m)]
  rw [show ((data.length : ℤ) - m).toNat = data.length - m.toNat from by omega]
  rw [if_neg (by
    rw [List.length_drop, List.length_map]
    omega)]

/-- Claim C5, witness: the amended stability formula evaluated on
exNegTrend with window 3. -/
theorem C5_stability_formula_witness :
    (Prediction.predictMovingAverageWithConfidence exNegTrend 3).confidenceMetric
      = min 1 (max 0 (1 / (1 +
          (if 0 < qMean (windowedCloses exNegTrend (effectiveWindow exNegTrend 3))
            then qStdDev (windowedCloses exNegTrend (effectiveWindow exNegTrend 3))
                  (qMean (windowedCloses exNegTrend (effectiveWindow exNegTrend 3)))
                / |qMean (windowedCloses exNegTrend (effectiveWindow exNegTrend 3))|
            else qStdDev (windowedCloses exNegTrend (effectiveWindow exNegTrend 3))
                  (qMean (windowedCloses exNegTrend (effectiveWindow exNegTrend 3)))) * 5))) :=
  C5_stability_formula exNegTrend 3 (by decide) (by decide)

/-! ### Validation loop characterization -/

lemma valFold_totalAttempts (data : List Candlestick)
    (f : List Candlestick → PredictionResult) :
    ∀ (idxs : List ℕ) (st : Prediction.VState),
      (idxs.foldl (Prediction.valStep data f) st).totalAttempts
        = st.totalAttempts + idxs.length := by
  intro idxs
  induction idxs with
  | nil => intro st; simp
  | cons i rest ih =>
    intro st
    rw [List.foldl_cons, ih]
    have hstep : (Prediction.valStep data f st i).totalAttempts = st.totalAttempts + 1 := by
      rw [Prediction.valStep]
      split_ifs <;> rfl
    rw [hstep, List.length_cons]
    omega

lemma valFold_validPredictions (data : List Candlestick)
    (f : List Candlestick → PredictionResult) :
    ∀ (idxs : List ℕ) (st : Prediction.VState),
      (idxs.foldl (Prediction.valStep data f) st).validPredictions
        = st.validPredictions
          + (idxs.filter (fun i => (f (data.take i)).isValid)).length := by
  intro idxs
  induction idxs with
  | nil => intro st; simp
  | cons i rest ih =>
    intro st
    rw [List.foldl_cons, ih]
    cases hp : (f (data.take i)).isValid with
    | false =>
      have hstep : (Prediction.valStep data f st i).validPredictions = st.validPredictions := by
        rw [Prediction.valStep]
        rw [if_neg (by rw [hp]; exact Bool.false_ne_true)]
      rw [hstep, List.filter_cons, if_neg (by rw [hp]; exact Bool.false_ne_true)]
    | true =>
      have hstep : (Prediction.valStep data f st i).validPredictions
          = st.validPredictions + 1 := by
        rw [Prediction.valStep]
        rw [if_pos hp]
      rw [hstep, List.filter_cons, if_pos (by rw [hp]), List.length_cons]
      omega

lemma valFold_errors (data : List Candlestick)
    (f : List Candlestick → PredictionResult) :
    ∀ (idxs : List ℕ) (st : Prediction.VState),
      (idxs.foldl (Prediction.valStep data f) st).errors
        = st.errors ++ idxs.filterMap (fun i =>
            if (f (data.take i)).isValid
            then some |(f (data.take i)).predictionValue - Prediction.closeAt data i|
            else none) := by
  intro idxs
  induction idxs with
  | nil => intro st; simp
  | cons i rest ih =>
    intro st
    rw [List.foldl_cons, ih]
    cases hp : (f (data.take i)).isValid with
    | false =>
      have hstep : (Prediction.valStep data f st i).errors = st.errors := by
        rw [Prediction.valStep]
        rw [if_neg (by rw [hp]; exact Bool.false_ne_true)]
      rw [hstep, List.filterMap_cons]
      rw [if_neg (by rw [hp]; exact Bool.false_ne_true)]
    | true =>
      have hstep : (Prediction.valStep data f st i).errors
          = st.errors ++ [|(f (data.take i)).predictionValue - Prediction.closeAt data i|] := by
        rw [Prediction.valStep]
        rw [if_pos hp]
      rw [hstep, List.filterMap_cons]
      rw [if_pos (by rw [hp]), List.append_assoc]
      rfl

/-! ### Claim C6 -/

/-- Claim C6: when the history has at least minTrainingSize + 1 elements,
the validator iterates the test indices minTrainingSize to n-1, training
each prediction on the strict prefix history[0:i] and comparing against
history[i].close: the attempt count is exactly n - minTrainingSize, the
valid-prediction count is the number of those prefixes on which the model
returns a valid result, and the mean absolute error is taken over exactly
the valid predictions (an invalid result is excluded from the statistics
but still counted as an attempt). -/
theorem C6_forward_chaining (data : List Candlestick)
    (f : List Candlestick → PredictionResult) (m : ℕ) (h : m + 1 ≤ data.length) :
    (Prediction.validateModel data f m).totalAttempts = data.length - m
    ∧ (Prediction.validateModel data f m).validPredictions
        = ((List.range' m (data.length - m)).filter
            (fun i => (f (data.take i)).isValid)).length
    ∧ (Prediction.validateModel data f m).meanAbsoluteError
        = qMean ((List.range' m (data.length - m)).filterMap (fun i =>
            if (f (data.take i)).isValid
            then some |(f (data.take i)).predictionValue - Prediction.closeAt data i|
            else none)) := by
  simp only [Prediction.validateModel]
  rw [if_neg (by omega : ¬data.length < m + 1)]
  have hatt := valFold_totalAttempts data f (List.range' m (data.length - m)) ⟨[], [], 0, 0⟩
  have hval := valFold_validPredictions data f (List.range' m (data.length - m)) ⟨[], [], 0, 0⟩
  have herr := valFold_errors data f (List.range' m (data.length - m)) ⟨[], [], 0, 0⟩
  simp only [List.length_range', List.nil_append] at hatt hval herr
  split_ifs with he
  · refine ⟨by simpa using hatt, by simpa using hval, ?_⟩
    rw [← herr, he]
    rfl
  · exact ⟨by simpa using hatt, by simpa using hval, by rw [← herr]⟩

/-- Claim C6, witness: validating the heuristic model over the five-bar
history with minTrainingSize 2 attempts exactly 3 predictions. -/
theorem C6_forward_chaining_witness :
    (Prediction.validateModel exFiveBars Prediction.predictHeuristicWithConfidence 2).totalAttempts
      = 3 :=
  (C6_forward_chaining exFiveBars Prediction.predictHeuristicWithConfidence 2 (by decide)).1

/-! ### Claim C8 -/

/-- Claim C8: for every history, model function and startIndex within
bounds, the rolling predictor returns exactly n - startIndex results, and
the k-th result is the model applied to the strict prefix
history[0 : startIndex + k], in order, with no entry dropped or
reordered. -/
theorem C8_rolling_contract (data : List Candlestick)
    (f : List Candlestick → PredictionResult) (s : ℕ) (h : s ≤ data.length) :
    (Prediction.generateRollingPredictions data f s).length = data.length - s
    ∧ ∀ k, k < data.length - s →
        (Prediction.generateRollingPredictions data f s)[k]?
          = some (f (data.take (s + k))) := by
  constructor
  · rw [Prediction.generateRollingPredictions]
    simp [List.length_range']
  · intro k hk
    rw [Prediction.generateRollingPredictions]
    have hidx : (List.range' s (data.length - s))[k]? = some (s + k) := by
      rw [List.getElem?_eq_getElem (by simpa [List.length_range'] using hk)]
      simp [List.getElem_range']
    rw [List.getElem?_map, hidx]
    rfl

/-- Claim C8, witness: rolling predictions over the two-bar history from
startIndex 1 produce exactly one entry, the model applied to the one-bar
prefix. -/
theorem C8_rolling_contract_witness :
    (Prediction.generateRollingPredictions exLinearData
        Prediction.predictHeuristicWithConfidence 1).length = 1
    ∧ (Prediction.generateRollingPredictions exLinearData
        Prediction.predictHeuristicWithConfidence 1)[0]?
      = some (Prediction.predictHeuristicWithConfidence (exLinearData.take (1 + 0))) :=
  ⟨(C8_rolling_contract exLinearData Prediction.predictHeuristicWithConfidence 1 (by decide)).1,
   (C8_rolling_contract exLinearData Prediction.predictHeuristicWithConfidence 1 (by decide)).2
     0 (by decide)⟩
